import Mathlib

/-!
Shallow embedding of the flot-rs chart-builder library (src/lib.rs).

Conventions of the embedding:
* Rust `f64` values are modelled as `ℚ`.  Every claim settled here depends
  only on exact comparisons, addition of zero, and integer-valued literals,
  which behave identically for `f64` and `ℚ`.
* `json::JsonValue` is modelled by the inductive `Flot.Json`; objects are
  insertion-ordered association lists (the `json` crate stores members in
  insertion order, `insert` replaces in place, and indexing a missing key
  reads as `Null` while index-assignment auto-vivifies).
* Methods taking `&mut self` become functions returning the new value.
  A Rust `panic!` (and a debug-mode arithmetic overflow) is modelled as
  `Except.error` carrying the panic message.
* `Page::render`'s buffered file writes are modelled by the `String` it
  would write; the `FLOT` environment variable is an `Option String`
  parameter.
-/

namespace Flot

/-- Model of `json::JsonValue`: null / boolean / number / string /
array / object, objects as insertion-ordered association lists. -/
inductive Json where
  | null : Json
  | bool (b : Bool) : Json
  | num (q : ℚ) : Json
  | str (s : String) : Json
  | arr (xs : List Json) : Json
  | obj (kvs : List (String × Json)) : Json

/-- `JsonValue::is_null`. -/
def Json.is_null : Json → Bool
  | .null => true
  | _ => false

/-- `JsonValue::len`: length of an array or object, 0 otherwise. -/
def Json.len : Json → Nat
  | .arr xs => xs.length
  | .obj kvs => kvs.length
  | _ => 0

/-- Lookup in an object member list; missing keys read as `Null`
(`Index<&str>` for `JsonValue` returns `&NULL` when absent). -/
def lookupKey : List (String × Json) → String → Json
  | [], _ => .null
  | (k, v) :: rest, key => if k = key then v else lookupKey rest key

/-- `json`-crate object insert: replace in place if the key exists,
otherwise append at the end (insertion order preserved). -/
def insertKey : List (String × Json) → String → Json → List (String × Json)
  | [], key, v => [(key, v)]
  | (k, w) :: rest, key, v =>
      if k = key then (k, v) :: rest else (k, w) :: insertKey rest key v

/-- Immutable string indexing `j[key]`: object lookup, `Null` otherwise. -/
def getKey : Json → String → Json
  | .obj kvs, key => lookupKey kvs key
  | _, _ => .null

/-- Mutable string indexing `j[key]` followed by mutating the entry with
`f`.  Matches `IndexMut<&str>` of the `json` crate: on an object the key
is inserted as `Null` if missing and then mutated; on any other value the
receiver is first replaced by a fresh empty object (auto-vivification). -/
def modifyKey (j : Json) (key : String) (f : Json → Json) : Json :=
  match j with
  | .obj kvs => .obj (insertKey kvs key (f (lookupKey kvs key)))
  | _ => .obj [(key, f .null)]

/-- Assignment `j[key] = v` through `IndexMut<&str>`. -/
def setKey (j : Json) (key : String) (v : Json) : Json :=
  modifyKey j key (fun _ => v)

/-- Mutable integer indexing `j[i]` followed by mutating the entry with
`f`.  Matches `IndexMut<usize>` of the `json` crate: in bounds mutates the
element; out of bounds pushes a `Null` and mutates it; on a non-array the
receiver is first replaced by a fresh empty array. -/
def modifyIdx (j : Json) (i : Nat) (f : Json → Json) : Json :=
  match j with
  | .arr xs =>
      if h : i < xs.length then .arr (xs.set i (f xs[i])) else .arr (xs ++ [f .null])
  | _ => .arr [f .null]

/-- Number formatting of the `json` crate's dump, restricted to the cases
the claims exercise: integral values print without a fractional part
(`1.0` prints as `1`).  Non-integral formatting is abstracted as the
rational's own representation; no claim compares such digits. -/
def numStr (q : ℚ) : String :=
  if q.den = 1 then toString q.num else toString q

mutual

/-- `JsonValue`'s `Display`, i.e. `dump()`: compact JSON with members in
insertion order.  String escaping is omitted: every string the claims
serialize is free of characters the `json` crate would escape. -/
def jdump : Json → String
  | .null => "null"
  | .bool b => cond b "true" "false"
  | .num q => numStr q
  | .str s => "\"" ++ s ++ "\""
  | .arr xs => "[" ++ jdumpArr xs ++ "]"
  | .obj kvs => "\x7b" ++ jdumpObj kvs ++ "\x7d"

/-- Comma-separated dump of array elements. -/
def jdumpArr : List Json → String
  | [] => ""
  | [x] => jdump x
  | x :: y :: xs => jdump x ++ "," ++ jdumpArr (y :: xs)

/-- Comma-separated dump of object members. -/
def jdumpObj : List (String × Json) → String
  | [] => ""
  | [kv] => "\"" ++ kv.1 ++ "\":" ++ jdump kv.2
  | kv :: kw :: kvs => "\"" ++ kv.1 ++ "\":" ++ jdump kv.2 ++ "," ++ jdumpObj (kw :: kvs)

end

/-- `as` begins with `needle` (character lists). -/
def startsWithChars : List Char → List Char → Bool
  | [], _ => true
  | _ :: _, [] => false
  | a :: as, b :: bs => a == b && startsWithChars as bs

/-- `needle` occurs somewhere inside the character list. -/
def containsChars (needle : List Char) : List Char → Bool
  | [] => startsWithChars needle []
  | b :: bs => startsWithChars needle (b :: bs) || containsChars needle bs

/-- The string `hay` contains `needle` as a substring. -/
def strContains (hay needle : String) : Bool :=
  containsChars needle.data hay.data

/-- Iterator state of `flot::FRange` (`val`, `end`, `incr`). -/
structure FRange where
  val : ℚ
  end_ : ℚ
  incr : ℚ

/-- `flot::range(x1, x2, skip)`. -/
def range (x1 x2 skip : ℚ) : FRange :=
  { val := x1, end_ := x2, incr := skip }

/-- `<FRange as Iterator>::next`: returns the yielded item (if any) and
the successor state.  The source binds `res = self.val` first; `res >=
end` yields `None` without mutating, otherwise `val` is advanced by
`incr` and `res` is yielded. -/
def FRange.next (s : FRange) : Option ℚ × FRange :=
  if s.val ≥ s.end_ then (none, s)
  else (some s.val, { s with val := s.val + s.incr })

/-- State after `n` calls of `next` (discarding the yielded items). -/
def FRange.iter (s : FRange) : Nat → FRange
  | 0 => s
  | n + 1 => (FRange.next (FRange.iter s n)).2

/-- `flot::PlotKind`. -/
inductive PlotKind where
  | Lines : PlotKind
  | Points : PlotKind
  | Bars : PlotKind
deriving DecidableEq

/-- `PlotKind::to_str`. -/
def PlotKind.to_str : PlotKind → String
  | .Lines => "lines"
  | .Points => "points"
  | .Bars => "bars"

/-- `flot::Series`: configuration subtree, chart kind, and the (dead,
never-read) per-series `symbols` flag. -/
structure Series where
  data : Json
  kind : PlotKind
  symbols : Bool

/-- `Series::new`: data pairs become `[x,y]` arrays; an empty label is
stored as `Null`; the kind-specific subtree starts as `{"show": true}`. -/
def Series.new (kind : PlotKind) (label : String) (data : List (ℚ × ℚ)) : Series :=
  let arr := Json.arr (data.map (fun p => Json.arr [Json.num p.1, Json.num p.2]))
  let jlbl := if label.isEmpty then Json.null else Json.str label
  let d0 := Json.obj [("label", jlbl), ("data", arr)]
  { data := setKey d0 kind.to_str (Json.obj [("show", Json.bool true)])
    kind := kind
    symbols := false }

/-- `self.kind_ref()[key] = v`: write `key` inside the kind-named
options subtree (`Series::kind_ref` plus one string-index assignment). -/
def Series.kind_ref_set (s : Series) (key : String) (v : Json) : Series :=
  { s with data := modifyKey s.data s.kind.to_str (fun o => setKey o key v) }

/-- `Series::radius`: points only, else `panic!`. -/
def Series.radius (s : Series) (size : Nat) : Except String Series :=
  match s.kind with
  | PlotKind.Points => .ok (s.kind_ref_set "radius" (Json.num size))
  | _ => .error "radius() only applies to points"

/-- `Series::symbol`: points only (sets the series-local `symbols` flag
and the `symbol` option), else `panic!`. -/
def Series.symbol (s : Series) (name : String) : Except String Series :=
  match s.kind with
  | PlotKind.Points => .ok (({ s with symbols := true }).kind_ref_set "symbol" (Json.str name))
  | _ => .error "symbol() only applies to points"

/-- `Series::steps`: lines only, else `panic!`. -/
def Series.steps (s : Series) : Except String Series :=
  match s.kind with
  | PlotKind.Lines => .ok (s.kind_ref_set "steps" (Json.bool true))
  | _ => .error "steps() only applies to lines"

/-- `Series::width`: bars only, else `panic!` (whose message says
`bar_width()`). -/
def Series.width (s : Series) (w : ℚ) : Except String Series :=
  match s.kind with
  | PlotKind.Bars => .ok (s.kind_ref_set "barWidth" (Json.num w))
  | _ => .error "bar_width() only applies to bars"

/-- `flot::Plot`: the series arena is a list in allocation order. -/
structure Plot where
  series : List Series
  placeholder : String
  options : Json
  time : Bool
  symbols : Bool
  bounds : Nat × Nat
  title : String
  option_functions : List String
  description : List String

/-- `Plot::new`. -/
def Plot.new (name title : String) (bounds : Nat × Nat) : Plot :=
  { series := []
    placeholder := name
    options := Json.obj []
    time := false
    symbols := false
    bounds := bounds
    title := title
    option_functions := []
    description := [] }

/-- Per-character HTML escaping performed by `Plot::text`. -/
def escapeChar (c : Char) : String :=
  if c = '<' then "&lt;"
  else if c = '>' then "&gt;"
  else if c = '&' then "&amp;"
  else String.singleton c

/-- The escaping loop of `Plot::text` over the character sequence. -/
def escapeChars : List Char → String
  | [] => ""
  | c :: cs => escapeChar c ++ escapeChars cs

/-- The full escaping performed by `Plot::text`. -/
def escapeHtml (s : String) : String :=
  escapeChars s.data

/-- `Plot::text`: append the HTML-escaped paragraph. -/
def Plot.text (p : Plot) (txt : String) : Plot :=
  { p with description := p.description ++ [escapeHtml txt] }

/-- `Plot::html`: append the paragraph verbatim. -/
def Plot.html (p : Plot) (txt : String) : Plot :=
  { p with description := p.description ++ [txt] }

/-- `Plot::size`. -/
def Plot.size (p : Plot) (width height : Nat) : Plot :=
  { p with bounds := (width, height) }

/-- `Plot::set_option`: vivify `options[key]` to `{}` when it reads as
null, then `options[key][subkey] = val`. -/
def Plot.set_option (p : Plot) (key subkey : String) (val : Json) : Plot :=
  let o1 := if (getKey p.options key).is_null then setKey p.options key (Json.obj []) else p.options
  { p with options := modifyKey o1 key (fun o => setKey o subkey val) }

/-- `Plot::extra_symbols`: the only writer of the plot-level `symbols`
flag. -/
def Plot.extra_symbols (p : Plot) : Plot :=
  { p with symbols := true }

/-- `Plot::points`: allocate a Points series in the plot's arena and
return the (stable) handle, modelled as the series' index. -/
def Plot.points (p : Plot) (label : String) (data : List (ℚ × ℚ)) : Plot × Nat :=
  ({ p with series := p.series ++ [Series.new PlotKind.Points label data] }, p.series.length)

/-- `Plot::lines`. -/
def Plot.lines (p : Plot) (label : String) (data : List (ℚ × ℚ)) : Plot × Nat :=
  ({ p with series := p.series ++ [Series.new PlotKind.Lines label data] }, p.series.length)

/-- `Plot::bars`. -/
def Plot.bars (p : Plot) (label : String) (data : List (ℚ × ℚ)) : Plot × Nat :=
  ({ p with series := p.series ++ [Series.new PlotKind.Bars label data] }, p.series.length)

/-- Mutation of an allocated series through its handle: the Rust caller
holds `&mut Series`; the embedding rewrites the series at that index. -/
def Plot.modifySeries (p : Plot) (i : Nat) (f : Series → Except String Series) :
    Except String Plot :=
  match p.series[i]? with
  | some s => (f s).map (fun s2 => { p with series := p.series.set i s2 })
  | none => .error "invalid series handle"

/-- `flot::Axis`: the borrowed plot is threaded separately; `which` and
the 0-based `idx` identify the axis slot. -/
structure Axis where
  which : String
  idx : Nat

/-- `Axis::new`: vivify `options[which]` to `[{}]` when it reads as
null; for position `idx > 1` push one further `{}`
(`push().unwrap()` panics if the entry is not an array); the handle
stores `idx - 1`. -/
def Axis.new (which : String) (p : Plot) (idx : Nat) : Except String (Plot × Axis) :=
  let o1 := if (getKey p.options which).is_null
    then setKey p.options which (Json.arr [Json.obj []]) else p.options
  if idx > 1 then
    match getKey o1 which with
    | .arr xs =>
        .ok ({ p with options := setKey o1 which (Json.arr (xs ++ [Json.obj []])) },
          { which := which, idx := idx - 1 })
    | _ => .error "push on non-array"
  else
    .ok ({ p with options := o1 }, { which := which, idx := idx - 1 })

/-- `Axis::set_option`: `options[which][idx][key] = val`. -/
def Axis.set_option (p : Plot) (a : Axis) (key : String) (val : Json) : Plot :=
  let o := modifyKey p.options a.which (fun arr =>
    modifyIdx arr a.idx (fun o => setKey o key val))
  { p with options := o }

/-- `Axis::time`: set the plot-level `time` flag and the axis `mode`. -/
def Axis.time (p : Plot) (a : Axis) : Plot :=
  Axis.set_option { p with time := true } a "mode" (Json.str "time")

/-- `Plot::xaxis`. -/
def Plot.xaxis (p : Plot) : Except String (Plot × Axis) :=
  Axis.new "xaxes" p 1

/-- `Plot::yaxis`. -/
def Plot.yaxis (p : Plot) : Except String (Plot × Axis) :=
  Axis.new "yaxes" p 1

/-- `Plot::yaxis2`. -/
def Plot.yaxis2 (p : Plot) : Except String (Plot × Axis) :=
  Axis.new "yaxes" p 2

/-- `Markings::new` (reached via `Plot::markings`): unconditionally set
`options["grid"]["markings"]` to an empty array. -/
def Markings.new (p : Plot) : Plot :=
  Plot.set_option p "grid" "markings" (Json.arr [])

/-- `Plot::markings`. -/
def Plot.markings (p : Plot) : Plot :=
  Markings.new p

/-- `Markings::add_marking`: `self.markings().push(val).unwrap()` — push
onto the markings array, panicking when the entry is not an array. -/
def Markings.add_marking (p : Plot) (val : Json) : Except String Plot :=
  match getKey (getKey p.options "grid") "markings" with
  | .arr xs =>
      let o := modifyKey p.options "grid" (fun g => setKey g "markings" (Json.arr (xs ++ [val])))
      .ok { p with options := o }
  | _ => .error "push on non-array"

/-- `Markings::vertical_area`. -/
def Markings.vertical_area (p : Plot) (p1 p2 : ℚ) : Except String Plot :=
  Markings.add_marking p
    (Json.obj [("xaxis", Json.obj [("from", Json.num p1), ("to", Json.num p2)])])

/-- `Markings::color`: `arr[len-1]["color"] = color` on the current
markings array.  With an empty array, `len - 1` underflows `usize`,
modelled as the debug-build panic (in a release build the index would
wrap instead). -/
def Markings.color (p : Plot) (c : String) : Except String Plot :=
  let arr := getKey (getKey p.options "grid") "markings"
  let len := arr.len
  if len = 0 then .error "attempt to subtract with overflow"
  else
    let o := modifyKey p.options "grid" (fun g =>
      modifyKey g "markings" (fun a =>
        modifyIdx a (len - 1) (fun m => setKey m "color" (Json.str c))))
    .ok { p with options := o }

/-- The single-quote character used inside emitted style attributes. -/
def sq : String :=
  String.singleton (Char.ofNat 39)

/-- `Plot::render_placeholder`: optional H2 heading, the sized container
div, then the description paragraphs. -/
def Plot.render_placeholder (p : Plot) : String :=
  (if p.title.isEmpty then ""
   else "<h2 style=" ++ sq ++ "text-align: center;width:" ++ toString p.bounds.1
     ++ "px" ++ sq ++ ">" ++ p.title ++ "</h2>\n")
  ++ "<div id=\"" ++ p.placeholder ++ "\" style=\"width:" ++ toString p.bounds.1
     ++ "px;height:" ++ toString p.bounds.2 ++ "px\"></div>\n"
  ++ String.join (p.description.map (fun s =>
       "<p style=" ++ sq ++ "width:" ++ toString p.bounds.1
       ++ "px;margin-left:2em;margin-right:2em" ++ sq ++ ">" ++ s ++ "</p>"))

/-- `Plot::render_script`: one `var plot_k = ...;` per series in
allocation order, the options variable, the option-function lines, and
the final `$.plot` call.  (With no series the `data.pop()` in the source
removes the opening bracket, leaving just `]`.) -/
def Plot.render_script (p : Plot) : String :=
  let names := (List.range p.series.length).map (fun i => "plot_" ++ toString (i + 1))
  let decls := String.join ((p.series.zip names).map (fun sv =>
    "var " ++ sv.2 ++ " = " ++ jdump sv.1.data ++ ";\n"))
  let data := ("[" ++ String.join (names.map (fun n => n ++ ","))).dropRight 1 ++ "]"
  decls ++ "var plot_options = " ++ jdump p.options ++ ";\n"
  ++ String.join (p.option_functions.map (fun lf => "plot_options." ++ lf ++ ";\n"))
  ++ "$.plot($(\"#" ++ p.placeholder ++ "\")," ++ data ++ ",plot_options);\n"

/-- `flot::Page`: the plot arena with its interior-mutable counter. -/
structure Page where
  plots : List Plot
  count : Nat
  title : String
  bounds : Nat × Nat

/-- `Page::new`. -/
def Page.new (title : String) : Page :=
  { plots := [], count := 0, title := title, bounds := (800, 300) }

/-- `Page::plot`: bump the counter, allocate `plot{count}` into the
arena, hand back the (stable) handle modelled as the plot's index. -/
def Page.plot (pg : Page) (title : String) : Page × Nat :=
  let count := pg.count + 1
  let name := "plot" ++ toString count
  ({ pg with count := count, plots := pg.plots ++ [Plot.new name title pg.bounds] },
   pg.plots.length)

/-- `Page::size`. -/
def Page.size (pg : Page) (width height : Nat) : Page :=
  { pg with bounds := (width, height) }

/-- The `script` helper emitting one script include. -/
def script (base name : String) : String :=
  "<script language=\"javascript\" type=\"text/javascript\" src=\"" ++ base ++ "/"
    ++ name ++ "\"></script>"

/-- The two optional companion includes of `Page::render`, gated on the
plot-level `time` and `symbols` flags aggregated over all plots. -/
def optionalScripts (plots : List Plot) (flot : String) : String :=
  (if plots.any (fun p => p.time) then script flot "jquery.flot.time.min.js" ++ "\n" else "")
  ++ (if plots.any (fun p => p.symbols) then script flot "jquery.flot.symbol.min.js" ++ "\n" else "")

/-- Asset base URLs: the `FLOT` environment override redirects both to a
`file://` prefix, else the two CDN URLs. -/
def assetBases (flotEnv : Option String) : String × String :=
  match flotEnv with
  | some f => ("file://" ++ f, "file://" ++ f)
  | none =>
      ("https://cdnjs.cloudflare.com/ajax/libs/jquery/3.2.1",
       "https://cdnjs.cloudflare.com/ajax/libs/flot/0.8.3")

/-- `Page::render`: swaps the plot arena out of `self` (draining it),
emits the head with the two mandatory and the gated optional includes,
the optional H1, every placeholder block in creation order, and the
script block; returns the written text and the drained page. -/
def Page.render (pg : Page) (flotEnv : Option String) : String × Page :=
  let plots := pg.plots
  let jf := assetBases flotEnv
  let header := "\n<html>\n <head>\n    <meta http-equiv=\"Content-Type\" content=\"text/html; charset=utf-8\">\n    <title>"
    ++ (if pg.title.isEmpty then "Flot" else pg.title) ++ "</title>\n"
  let out := header ++ script jf.1 "jquery.min.js" ++ "\n" ++ script jf.2 "jquery.flot.min.js" ++ "\n"
    ++ optionalScripts plots jf.2
    ++ "</head>\n</body>\n"
    ++ (if pg.title.isEmpty then "" else "<h1>" ++ pg.title ++ "</h1>\n")
    ++ String.join (plots.map Plot.render_placeholder)
    ++ "<script type=\"text/javascript\">\n$(function () \x7b\n"
    ++ String.join (plots.map Plot.render_script)
    ++ "\x7d);\n</script>\n</body>\n</html>\n"
  (out, { pg with plots := [] })

/-- One plot holding a single Points series on which `symbol("square")`
was invoked through its handle — the scenario of the symbols-script
feature flag. -/
def symbolDemoPlot : Except String Plot :=
  let pr := Plot.points (Plot.new "plot1" "T" (800, 300)) "pts" [(1, 2)]
  Plot.modifySeries pr.1 pr.2 (fun s => Series.symbol s "square")

theorem lookupKey_insertKey_self (kvs : List (String × Json)) (key : String) (v : Json) :
    lookupKey (insertKey kvs key v) key = v := by
  induction kvs with
  | nil => simp [insertKey, lookupKey]
  | cons kv rest ih =>
      by_cases h : kv.1 = key
      · simp [insertKey, lookupKey, h]
      · simp [insertKey, lookupKey, h, ih]

theorem lookupKey_insertKey_ne (kvs : List (String × Json)) (key k : String) (v : Json)
    (hne : k ≠ key) : lookupKey (insertKey kvs key v) k = lookupKey kvs k := by
  induction kvs with
  | nil => simp [insertKey, lookupKey, Ne.symm hne]
  | cons kv rest ih =>
      obtain ⟨a, b⟩ := kv
      by_cases h : a = key
      · subst h
        simp [insertKey, lookupKey, Ne.symm hne]
      · simp [insertKey, lookupKey, h, ih]

theorem getKey_modifyKey_self (j : Json) (key : String) (f : Json → Json) :
    getKey (modifyKey j key f) key = f (getKey j key) := by
  cases j <;> simp [modifyKey, getKey, lookupKey, lookupKey_insertKey_self]

theorem getKey_modifyKey_ne (j : Json) (key k : String) (f : Json → Json)
    (hne : k ≠ key) : getKey (modifyKey j key f) k = getKey j k := by
  cases j <;>
    simp [modifyKey, getKey, lookupKey, lookupKey_insertKey_ne _ _ _ _ hne,
      Ne.symm hne]

theorem getKey_setKey_self (j : Json) (key : String) (v : Json) :
    getKey (setKey j key v) key = v := by
  simp [setKey, getKey_modifyKey_self]

theorem getKey_setKey_ne (j : Json) (key k : String) (v : Json) (hne : k ≠ key) :
    getKey (setKey j key v) k = getKey j k := by
  simp [setKey, getKey_modifyKey_ne _ _ _ _ hne]

/-- `j.is_null() = true` exactly when the value is `Null`. -/
theorem is_null_iff (j : Json) : j.is_null = true ↔ j = .null := by
  cases j <;> simp [Json.is_null]

/-- After `Plot::set_option(key, subkey, v)`, reading
`options[key][subkey]` yields `v`, whatever the plot held before. -/
theorem getKey_set_option_self (p : Plot) (key sk : String) (v : Json) :
    getKey (getKey (Plot.set_option p key sk v).options key) sk = v := by
  unfold Plot.set_option
  by_cases h : (getKey p.options key).is_null = true <;>
    simp [h, getKey_modifyKey_self, getKey_setKey_self]

/-- `Plot::set_option(key, subkey, v)` leaves every other subkey of
`options[key]` reading as before. -/
theorem getKey_set_option_ne (p : Plot) (key sk k2 : String) (v : Json) (h2 : k2 ≠ sk) :
    getKey (getKey (Plot.set_option p key sk v).options key) k2
      = getKey (getKey p.options key) k2 := by
  unfold Plot.set_option
  by_cases h : (getKey p.options key).is_null = true
  · rw [is_null_iff] at h
    rw [h]
    simp only [Json.is_null, if_true]
    rw [getKey_modifyKey_self, getKey_setKey_self, getKey_setKey_ne _ _ _ _ h2]
    rfl
  · simp [h, getKey_modifyKey_self, getKey_setKey_self, getKey_setKey_ne _ _ _ _ h2]

theorem data_append (a b : String) : (a ++ b).data = a.data ++ b.data := rfl

theorem escapeChar_no_raw_angle (c : Char) :
    '<' ∉ (escapeChar c).data ∧ '>' ∉ (escapeChar c).data := by
  unfold escapeChar
  split
  · decide
  · split
    · decide
    · split
      · decide
      · rename_i h1 h2 h3
        simp [String.singleton]
        exact ⟨fun hh => h1 hh.symm, fun hh => h2 hh.symm⟩

theorem escapeChars_no_raw_angle (l : List Char) :
    '<' ∉ (escapeChars l).data ∧ '>' ∉ (escapeChars l).data := by
  induction l with
  | nil => simp [escapeChars]
  | cons c cs ih =>
      simp only [escapeChars, data_append, List.mem_append, not_or]
      exact ⟨⟨(escapeChar_no_raw_angle c).1, ih.1⟩, (escapeChar_no_raw_angle c).2, ih.2⟩

/-- Claim C7: a series created with an empty label stores the label member as
`Null` (it serializes as `null`, the form the legend machinery treats as
label-less), while a non-empty label is carried as given. -/
theorem series_label_omission (kind : PlotKind) (data : List (ℚ × ℚ)) (label : String) :
    getKey (Series.new kind "" data).data "label" = Json.null ∧
    (label.isEmpty = false → getKey (Series.new kind label data).data "label" = Json.str label) := by
  have hk : ("label" : String) ≠ kind.to_str := by cases kind <;> decide
  constructor
  · have e : (Series.new kind "" data).data
        = setKey (Json.obj [("label", Json.null),
            ("data", Json.arr (data.map (fun p => Json.arr [Json.num p.1, Json.num p.2])))])
            kind.to_str (Json.obj [("show", Json.bool true)]) := rfl
    rw [e, getKey_setKey_ne _ _ _ _ hk]
    rfl
  · intro h
    have e : (Series.new kind label data).data
        = setKey (Json.obj [("label", if label.isEmpty = true then Json.null else Json.str label),
            ("data", Json.arr (data.map (fun p => Json.arr [Json.num p.1, Json.num p.2])))])
            kind.to_str (Json.obj [("show", Json.bool true)]) := rfl
    rw [e, getKey_setKey_ne _ _ _ _ hk, h]
    rfl

/-- Claim C7 witness: concrete series with empty and with non-empty label. -/
theorem series_label_omission_witness :
    getKey (Series.new PlotKind.Lines "" []).data "label" = Json.null ∧
    getKey (Series.new PlotKind.Lines "lines" []).data "label" = Json.str "lines" :=
  ⟨(series_label_omission PlotKind.Lines [] "lines").1,
   (series_label_omission PlotKind.Lines [] "lines").2 rfl⟩

/-- Claim C8: `Plot::text` appends the paragraph with `<`, `>`, `&` escaped
(the escaped text retains no raw `<` or `>`, and each escapable
character maps to its entity), while `Plot::html` appends the paragraph
verbatim, character for character. -/
theorem text_escapes_html_raw_passthrough (p : Plot) (txt : String) :
    (Plot.text p txt).description = p.description ++ [escapeHtml txt] ∧
    (Plot.html p txt).description = p.description ++ [txt] ∧
    '<' ∉ (escapeHtml txt).data ∧ '>' ∉ (escapeHtml txt).data ∧
    escapeChar '<' = "&lt;" ∧ escapeChar '>' = "&gt;" ∧ escapeChar '&' = "&amp;" :=
  ⟨rfl, rfl, (escapeChars_no_raw_angle txt.data).1, (escapeChars_no_raw_angle txt.data).2,
   rfl, rfl, rfl⟩

/-- Claim C8 witness: the escaping and pass-through behavior on a concrete
paragraph containing markup. -/
theorem text_escapes_html_raw_passthrough_witness :
    (Plot.text (Plot.new "plot1" "" (800, 300)) "a<b").description = [escapeHtml "a<b"] ∧
    (Plot.html (Plot.new "plot1" "" (800, 300)) "a<b").description = ["a<b"] ∧
    ('<' ∈ (escapeHtml "a<b").data → False) := by
  refine ⟨?_, ?_, fun hm => ?_⟩
  · have h := (text_escapes_html_raw_passthrough (Plot.new "plot1" "" (800, 300)) "a<b").1
    simpa using h
  · have h := (text_escapes_html_raw_passthrough (Plot.new "plot1" "" (800, 300)) "a<b").2.1
    simpa using h
  · exact (text_escapes_html_raw_passthrough (Plot.new "plot1" "" (800, 300)) "a<b").2.2.1 hm

/-- Claim C9: obtaining a `Markings` handle via `Plot::markings` always resets
`options["grid"]["markings"]` to an empty array — discarding markings
already added through a previous handle — while every other grid option
key reads as before. -/
theorem markings_handle_resets_array (p : Plot) (k : String) (hk : k ≠ "markings") :
    getKey (getKey (Plot.markings p).options "grid") "markings" = Json.arr [] ∧
    getKey (getKey (Plot.markings p).options "grid") k = getKey (getKey p.options "grid") k ∧
    ∀ m q, Markings.add_marking (Plot.markings p) m = Except.ok q →
      getKey (getKey (Plot.markings q).options "grid") "markings" = Json.arr [] :=
  ⟨getKey_set_option_self p "grid" "markings" (Json.arr []),
   getKey_set_option_ne p "grid" "markings" k (Json.arr []) hk,
   fun _ q _ => getKey_set_option_self q "grid" "markings" (Json.arr [])⟩

/-- Claim C9 witness: on a plot whose grid already holds a color, a fresh
handle empties the markings array but keeps the color. -/
theorem markings_handle_resets_array_witness :
    getKey (getKey (Plot.markings (Plot.set_option (Plot.new "plot1" "" (800, 300))
        "grid" "color" (Json.str "red"))).options "grid") "markings" = Json.arr [] ∧
    getKey (getKey (Plot.markings (Plot.set_option (Plot.new "plot1" "" (800, 300))
        "grid" "color" (Json.str "red"))).options "grid") "color" = Json.str "red" := by
  have h := markings_handle_resets_array
    (Plot.set_option (Plot.new "plot1" "" (800, 300)) "grid" "color" (Json.str "red"))
    "color" (by decide)
  exact ⟨h.1, by rw [h.2.1]; rfl⟩

/-- Claim C2 counterexample: after `Page::render` has consumed the plots, a
further `Page::plot` call is not rejected — it silently succeeds, bumping
the counter to 2 and allocating `plot2` into the fresh arena. -/
theorem plot_after_render_succeeds :
    ((Page.render (((Page.new "").plot "A").1) none).2.plot "B").1.plots.length = 1 ∧
    ((Page.render (((Page.new "").plot "A").1) none).2.plot "B").1.count = 2 ∧
    ((Page.render (((Page.new "").plot "A").1) none).2.plot "B").1.plots.map
      (fun p => p.placeholder) = ["plot2"] :=
  ⟨rfl, rfl, rfl⟩

/-- Claim C2 as amended: `render` does not seal the page — for every page,
a `plot` call on the rendered (drained) page succeeds, leaving exactly
one plot in the arena and incrementing the counter past its pre-render
value; nothing fails or is prevented. -/
theorem render_does_not_seal_page (pg : Page) (env : Option String) (t : String) :
    ((Page.render pg env).2.plot t).1.plots.length = 1 ∧
    ((Page.render pg env).2.plot t).1.count = pg.count + 1 := by
  constructor <;> simp [Page.render, Page.plot]

/-- Claim C1: evaluating the failing scenario — `symbol("square")` on a Points
series sets only the series-local flag, which `Page::render` never
reads; the plot-level flag stays false, so the optional-scripts section
of the head is empty and no symbols script is emitted. -/
theorem symbol_flag_never_reaches_render :
    symbolDemoPlot.map (fun p =>
      (p.series.map (fun s => s.symbols), p.symbols,
        optionalScripts [p] "https://cdnjs.cloudflare.com/ajax/libs/flot/0.8.3"))
      = Except.ok ([true], false, "") := rfl

/-- Claim C4: through a fresh `Markings` handle, after adding two markings one
`color` call rewrites only the last (second) marking, leaving the first
untouched; invoking `color` while the markings array is still empty
fails with the usize-underflow panic of `len - 1` (debug semantics; a
release build would wrap) rather than silently no-opping. -/
theorem markings_color_targets_last (p : Plot) (m1 m2 : Json) (c : String) :
    Markings.color (Markings.new p) c = Except.error "attempt to subtract with overflow" ∧
    ((Markings.add_marking (Markings.new p) m1).bind (fun q =>
      (Markings.add_marking q m2).bind (fun r =>
        (Markings.color r c).map (fun s => getKey (getKey s.options "grid") "markings"))))
      = Except.ok (Json.arr [m1, setKey m2 "color" (Json.str c)]) := by
  have h0 : getKey (getKey (Markings.new p).options "grid") "markings" = Json.arr [] :=
    getKey_set_option_self p "grid" "markings" (Json.arr [])
  constructor
  · simp [Markings.color, h0, Json.len]
  · simp [Markings.add_marking, h0, getKey_modifyKey_self, getKey_setKey_self,
      Markings.color, Json.len, modifyIdx, Except.bind, Except.map]

/-- Claim C5: each kind-specific series operation invoked on a series of a
different kind fails with the fixed panic message (which contains both
the operation's name and the kind it applies to as substrings) and,
panicking before touching the tree, produces no updated series. -/
theorem series_kind_mismatch_rejected (s : Series) (n : Nat) (nm : String) (w : ℚ) :
    (s.kind ≠ PlotKind.Points →
      s.radius n = Except.error "radius() only applies to points" ∧
      s.symbol nm = Except.error "symbol() only applies to points") ∧
    (s.kind ≠ PlotKind.Lines → s.steps = Except.error "steps() only applies to lines") ∧
    (s.kind ≠ PlotKind.Bars → s.width w = Except.error "bar_width() only applies to bars") ∧
    (strContains "radius() only applies to points" "radius"
      && strContains "radius() only applies to points" "points") = true ∧
    (strContains "symbol() only applies to points" "symbol"
      && strContains "symbol() only applies to points" "points") = true ∧
    (strContains "steps() only applies to lines" "steps"
      && strContains "steps() only applies to lines" "lines") = true ∧
    (strContains "bar_width() only applies to bars" "width"
      && strContains "bar_width() only applies to bars" "bars") = true := by
  refine ⟨fun h => ⟨?_, ?_⟩, fun h => ?_, fun h => ?_, by decide, by decide, by decide, by decide⟩
  · cases hk : s.kind
    · simp [Series.radius, hk]
    · exact absurd hk h
    · simp [Series.radius, hk]
  · cases hk : s.kind
    · simp [Series.symbol, hk]
    · exact absurd hk h
    · simp [Series.symbol, hk]
  · cases hk : s.kind
    · exact absurd hk h
    · simp [Series.steps, hk]
    · simp [Series.steps, hk]
  · cases hk : s.kind
    · simp [Series.width, hk]
    · simp [Series.width, hk]
    · exact absurd hk h

/-- Claim C5 witness: concrete mismatches for each operation family. -/
theorem series_kind_mismatch_rejected_witness :
    (Series.new PlotKind.Lines "l" []).radius 3
      = Except.error "radius() only applies to points" ∧
    (Series.new PlotKind.Points "p" []).steps
      = Except.error "steps() only applies to lines" ∧
    (Series.new PlotKind.Lines "l" []).width 1
      = Except.error "bar_width() only applies to bars" := by
  refine ⟨((series_kind_mismatch_rejected (Series.new PlotKind.Lines "l" []) 3 "x" 1).1
      (by decide)).1, ?_, ?_⟩
  · exact (series_kind_mismatch_rejected (Series.new PlotKind.Points "p" []) 3 "x" 1).2.1
      (by decide)
  · exact (series_kind_mismatch_rejected (Series.new PlotKind.Lines "l" []) 3 "x" 1).2.2.1
      (by decide)

/-- Claim C6 counterexample: two consecutive second-y-axis requests on a fresh
plot leave three axis slots in `yaxes` — not two, the highest position
ever requested — refuting the claim's "exactly as many slots as the
highest position requested". -/
theorem yaxis2_twice_three_slots :
    ((Plot.yaxis2 (Plot.new "plot1" "" (800, 300))).bind (fun pa => Plot.yaxis2 pa.1)).map
        (fun pa => (getKey pa.1.options "yaxes").len) = Except.ok 3 ∧
    ((Plot.yaxis2 (Plot.new "plot1" "" (800, 300))).bind (fun pa => Plot.yaxis2 pa.1)).map
        (fun pa => (getKey pa.1.options "yaxes").len) ≠ Except.ok 2 := by
  refine ⟨rfl, fun hcontra => ?_⟩
  have h3 : ((Plot.yaxis2 (Plot.new "plot1" "" (800, 300))).bind (fun pa => Plot.yaxis2 pa.1)).map
      (fun pa => (getKey pa.1.options "yaxes").len) = Except.ok 3 := rfl
  rw [h3] at hcontra
  injection hcontra with h23
  exact absurd h23 (by decide)

/-- Claim C6 as amended: a second-y-axis request with no `yaxes` entry creates
exactly two slots, the first present but unconfigured, with writes going
to 0-based index 1; if the array already exists, one further slot is
appended (so each repeated request appends a slot — the array grows past
the highest position requested); every request returns the same stable
handle, index 1. -/
theorem yaxis2_slot_creation (p : Plot) (key : String) (v : Json) :
    (getKey p.options "yaxes" = Json.null →
      ∃ p2 a, Plot.yaxis2 p = Except.ok (p2, a) ∧ a.idx = 1 ∧ a.which = "yaxes" ∧
        getKey p2.options "yaxes" = Json.arr [Json.obj [], Json.obj []] ∧
        getKey (Axis.set_option p2 a key v).options "yaxes"
          = Json.arr [Json.obj [], Json.obj [(key, v)]]) ∧
    (∀ xs, getKey p.options "yaxes" = Json.arr xs →
      ∃ p2 a, Plot.yaxis2 p = Except.ok (p2, a) ∧ a.idx = 1 ∧ a.which = "yaxes" ∧
        getKey p2.options "yaxes" = Json.arr (xs ++ [Json.obj []])) := by
  constructor
  · intro h
    refine ⟨{ p with options := setKey (setKey p.options "yaxes" (Json.arr [Json.obj []])) "yaxes" (Json.arr [Json.obj [], Json.obj []]) }, { which := "yaxes", idx := 1 }, ?_, rfl, rfl, ?_, ?_⟩
    · simp [Plot.yaxis2, Axis.new, h, Json.is_null, getKey_setKey_self]
    · exact getKey_setKey_self _ _ _
    · simp only [Axis.set_option]
      rw [getKey_modifyKey_self, getKey_setKey_self]
      simp [modifyIdx, setKey, modifyKey, insertKey]
  · intro xs h
    refine ⟨{ p with options := setKey p.options "yaxes" (Json.arr (xs ++ [Json.obj []])) }, { which := "yaxes", idx := 1 }, ?_, rfl, rfl, ?_⟩
    · simp [Plot.yaxis2, Axis.new, h, Json.is_null]
    · exact getKey_setKey_self _ _ _

/-- Claim C6 witness: the two hypothesis cases at concrete plots — a fresh
plot (no `yaxes` yet) and a plot whose `yaxes` holds one slot. -/
theorem yaxis2_slot_creation_witness :
    (∃ p2 a, Plot.yaxis2 (Plot.new "plot1" "" (800, 300)) = Except.ok (p2, a) ∧
      a.idx = 1 ∧ a.which = "yaxes" ∧
      getKey p2.options "yaxes" = Json.arr [Json.obj [], Json.obj []] ∧
      getKey (Axis.set_option p2 a "min" (Json.num 0)).options "yaxes"
        = Json.arr [Json.obj [], Json.obj [("min", Json.num 0)]]) ∧
    (∃ p2 a, Plot.yaxis2 { Plot.new "plot1" "" (800, 300) with
        options := Json.obj [("yaxes", Json.arr [Json.obj []])] } = Except.ok (p2, a) ∧
      a.idx = 1 ∧ a.which = "yaxes" ∧
      getKey p2.options "yaxes" = Json.arr [Json.obj [], Json.obj []]) := by
  constructor
  · exact (yaxis2_slot_creation (Plot.new "plot1" "" (800, 300)) "min" (Json.num 0)).1 rfl
  · have h := (yaxis2_slot_creation { Plot.new "plot1" "" (800, 300) with
        options := Json.obj [("yaxes", Json.arr [Json.obj []])] } "min" (Json.num 0)).2
      [Json.obj []] rfl
    simpa using h

theorem iter_end (s : FRange) (n : Nat) : (FRange.iter s n).end_ = s.end_ := by
  induction n with
  | zero => rfl
  | succ n ih =>
      rw [show FRange.iter s (n + 1) = (FRange.next (FRange.iter s n)).2 from rfl]
      unfold FRange.next
      split
      · exact ih
      · exact ih

theorem iter_incr (s : FRange) (n : Nat) : (FRange.iter s n).incr = s.incr := by
  induction n with
  | zero => rfl
  | succ n ih =>
      rw [show FRange.iter s (n + 1) = (FRange.next (FRange.iter s n)).2 from rfl]
      unfold FRange.next
      split
      · exact ih
      · exact ih

theorem iter_val (s : FRange) (n : Nat) :
    ∃ k : ℕ, k ≤ n ∧ (FRange.iter s n).val = s.val + (k : ℚ) * s.incr := by
  induction n with
  | zero => exact ⟨0, Nat.le_refl 0, by simp [FRange.iter]⟩
  | succ n ih =>
      obtain ⟨k, hk, hv⟩ := ih
      rw [show FRange.iter s (n + 1) = (FRange.next (FRange.iter s n)).2 from rfl]
      unfold FRange.next
      split
      · exact ⟨k, Nat.le_succ_of_le hk, hv⟩
      · refine ⟨k + 1, Nat.succ_le_succ hk, ?_⟩
        show (FRange.iter s n).val + (FRange.iter s n).incr = s.val + ((k + 1 : ℕ) : ℚ) * s.incr
        rw [hv, iter_incr]
        push_cast
        ring

theorem frange_skip_zero_fixed (x1 x2 : ℚ) (h : x1 < x2) (n : Nat) :
    FRange.iter (range x1 x2 0) n = range x1 x2 0 := by
  induction n with
  | zero => rfl
  | succ n ih =>
      rw [show FRange.iter (range x1 x2 0) (n + 1)
          = (FRange.next (FRange.iter (range x1 x2 0) n)).2 from rfl, ih]
      unfold FRange.next
      rw [if_neg (by exact not_le.mpr h)]
      simp [range]

/-- Claim C10: the `range` iterator with `skip = 0` and `x1 < x2` yields
`Some(x1)` at every step and never `None` (non-termination); it
terminates immediately when `x1 >= x2`; and when `x1 < x2`, reaching
`None` at step `n` requires the accumulated increments to have pushed
the value past `x2` (some positive number `k <= n` of `skip`-steps with
`x1 + k * skip >= x2`). -/
theorem frange_termination (x1 x2 skip : ℚ) (n : Nat) :
    (x1 < x2 → (FRange.next (FRange.iter (range x1 x2 0) n)).1 = some x1) ∧
    (x2 ≤ x1 → (FRange.next (range x1 x2 skip)).1 = none) ∧
    (x1 < x2 → (FRange.next (FRange.iter (range x1 x2 skip) n)).1 = none →
      ∃ k : ℕ, 0 < k ∧ k ≤ n ∧ x2 ≤ x1 + (k : ℚ) * skip) := by
  refine ⟨fun h => ?_, fun h => ?_, fun h hnone => ?_⟩
  · rw [frange_skip_zero_fixed x1 x2 h n]
    unfold FRange.next
    rw [if_neg (by exact not_le.mpr h)]
    rfl
  · unfold FRange.next
    rw [if_pos (by exact h)]
  · have hge : (FRange.iter (range x1 x2 skip) n).end_
        ≤ (FRange.iter (range x1 x2 skip) n).val := by
      by_contra hlt
      unfold FRange.next at hnone
      rw [if_neg (by exact hlt)] at hnone
      simp at hnone
    obtain ⟨k, hk, hv⟩ := iter_val (range x1 x2 skip) n
    rw [iter_end] at hge
    rw [hv] at hge
    simp only [range] at hge
    refine ⟨k, ?_, hk, hge⟩
    rcases Nat.eq_zero_or_pos k with h0 | h0
    · subst h0
      simp at hge
      exact absurd hge (not_le.mpr h)
    · exact h0

/-- Claim C10 witness: at `range 0 1 0` the iterator still yields `some 0`
after three steps; `range 1 0 5` terminates at once; and the terminating
`range 0 1 1` run satisfies the accumulated-increment bound. -/
theorem frange_termination_witness :
    (FRange.next (FRange.iter (range 0 1 0) 3)).1 = some 0 ∧
    (FRange.next (range 1 0 5)).1 = none ∧
    ∃ k : ℕ, 0 < k ∧ k ≤ 1 ∧ (1 : ℚ) ≤ 0 + (k : ℚ) * 1 :=
  ⟨(frange_termination 0 1 0 3).1 zero_lt_one,
   (frange_termination 1 0 5 0).2.1 zero_le_one,
   (frange_termination 0 1 1 1).2.2 zero_lt_one
     (by norm_num [FRange.iter, FRange.next, range])⟩

set_option maxRecDepth 40000

/-- Claim C3 counterexample: a page holding one plot renders differently the
second time — the first `render` drains the plots, so the repeated
output lacks the placeholder and script content. -/
theorem render_twice_differs :
    (Page.render (((Page.new "").plot "").1) none).1
      ≠ (Page.render ((Page.render (((Page.new "").plot "").1) none).2) none).1 := by
  decide

/-- Claim C3 as amended: `render` is destructive — it returns the page with
its plots drained, so byte-identical repetition holds exactly when the
page holds no plots; for a plot-free page two renders agree. -/
theorem render_idempotent_on_empty (pg : Page) (env : Option String) (h : pg.plots = []) :
    (Page.render pg env).1 = (Page.render (Page.render pg env).2 env).1 := by
  cases pg with
  | mk plots count title bounds =>
      simp only at h
      subst h
      rfl

/-- Claim C3 witness: the drained-page equality at a concrete empty page. -/
theorem render_idempotent_on_empty_witness :
    (Page.new "t").plots = [] ∧
    (Page.render (Page.new "t") none).1
      = (Page.render (Page.render (Page.new "t") none).2 none).1 :=
  ⟨rfl, render_idempotent_on_empty (Page.new "t") none rfl⟩

end Flot
